import Mathlib

/-!
Verification of the sudoers time stamp dump tool (plugins/sudoers/tsdump.c).

The development shallowly embeds the scan loop of `main`, the structural
validator `valid_entry`, the version migrator / time normalizer
`convert_entry`, and the renderer `dump_entry` (with its helpers
`type2string` and `print_flags`).

Modelling conventions:
 - The C union `timestamp_entry_storage` overlays the v1 and v2 record
   layouts on one byte region.  It is modelled at the granularity of the
   finest field overlap (LP64 layout): bytes 16..31 hold `v1.ts` which is
   also `v2.start_time`; bytes 32..39 hold `v1.u` which is also
   `v2.ts.tv_sec`; bytes 40..47 hold `v2.ts.tv_nsec`; bytes 48..55 hold
   `v2.u`.  The scope union `u` (dev_t / pid_t) is modelled as a single
   integer, following the spec data model (a union interpreted by `type`).
 - Output is modelled as a list of channel/item pairs: every printf of the
   tool becomes one `Item` on channel `Chan.out` (standard output), every
   sudo_warnx / sudo_fatal message one item on `Chan.err`.
 - `read(2)` results are modelled by `ReadResult`: `bytes n slot` is a read
   that returned `n` bytes leaving `slot` in the buffer, `ioError` a read
   returning -1.  `lseek` failure is modelled as the target offset being
   negative (EINVAL), the only way the seek in the loop can fail on a
   regular file.
 - The `#ifdef __linux__` around the start_time adjustment is modelled by
   an explicit `linux : Bool` configuration flag, as the spec directs.
-/

namespace Tsdump

/-- Modelled from the spec: timestamp-record constants from the sudoers
header check.h, which is not under src/ (tsdump.c includes it). -/
def TS_VERSION : Nat := 2

/-- Modelled from the spec: record type TS_GLOBAL from check.h (not under src/). -/
def TS_GLOBAL : Nat := 0x01

/-- Modelled from the spec: record type TS_TTY from check.h (not under src/). -/
def TS_TTY : Nat := 0x02

/-- Modelled from the spec: record type TS_PPID from check.h (not under src/). -/
def TS_PPID : Nat := 0x03

/-- Modelled from the spec: record type TS_LOCKEXCL from check.h (not under src/). -/
def TS_LOCKEXCL : Nat := 0x04

/-- Modelled from the spec: flag bit TS_DISABLED from check.h (not under src/). -/
def TS_DISABLED : Nat := 0x01

/-- Modelled from the spec: flag bit TS_ANYUID from check.h (not under src/). -/
def TS_ANYUID : Nat := 0x02

/-- A struct timespec value: seconds and nanoseconds. -/
structure Timespec where
  tv_sec : Int
  tv_nsec : Int
deriving DecidableEq, Repr

/-- Modelled from the spec: the sudo_timespecisset macro (sudo compat
headers, not under src/): a timespec is set when either field is nonzero. -/
def sudo_timespecisset (t : Timespec) : Bool :=
  t.tv_sec != 0 || t.tv_nsec != 0

/-- Modelled from the spec: the sudo_timespecadd macro (sudo compat headers,
not under src/): componentwise addition with nanosecond carry, for inputs
with normalized nanosecond fields. -/
def sudo_timespecadd (a b : Timespec) : Timespec :=
  let s := a.tv_sec + b.tv_sec
  let n := a.tv_nsec + b.tv_nsec
  if n ≥ 1000000000 then ⟨s + 1, n - 1000000000⟩ else ⟨s, n⟩

/-- Modelled from the spec: byte length of struct timestamp_entry_v1
(LP64 layout; the struct lives in check.h, not under src/). -/
def sizeof_timestamp_entry_v1 : Nat := 40

/-- Modelled from the spec: byte length of struct timestamp_entry, the
current (v2) layout (LP64; the struct lives in check.h, not under src/). -/
def sizeof_timestamp_entry : Nat := 56

/-- Byte length of union timestamp_entry_storage: the size of its largest
member, the v2 layout.  This is sizeof(cur), the fixed slot size read by
the scan loop. -/
def sizeof_storage : Nat := sizeof_timestamp_entry

/-- The C union timestamp_entry_storage, modelled at the granularity of the
finest overlap between the v1 and the v2 layout (LP64 offsets).
The header fields occupy bytes 0..7 and `auth_uid`/`sid` bytes 8..15 in
both layouts.  `bytes16`/`bytes24` are v1.ts and also v2.start_time;
`bytes32` is v1.u and also v2.ts.tv_sec; `bytes40` is v2.ts.tv_nsec;
`bytes48` is v2.u. -/
structure timestamp_entry_storage where
  version : Nat
  size : Nat
  type : Nat
  flags : Nat
  auth_uid : Int
  sid : Int
  bytes16 : Int
  bytes24 : Int
  bytes32 : Int
  bytes40 : Int
  bytes48 : Int
deriving DecidableEq, Repr

/-- The v1 view of the primary timestamp: v1.ts occupies bytes 16..31. -/
def v1_ts (s : timestamp_entry_storage) : Timespec :=
  ⟨s.bytes16, s.bytes24⟩

/-- The v1 view of the scope union: v1.u occupies bytes 32..39. -/
def v1_u (s : timestamp_entry_storage) : Int :=
  s.bytes32

/-- The v2 view of start_time: v2.start_time occupies bytes 16..31. -/
def v2_start_time (s : timestamp_entry_storage) : Timespec :=
  ⟨s.bytes16, s.bytes24⟩

/-- The v2 view of the primary timestamp: v2.ts occupies bytes 32..47. -/
def v2_ts (s : timestamp_entry_storage) : Timespec :=
  ⟨s.bytes32, s.bytes40⟩

/-- The v2 view of the scope union: v2.u occupies bytes 48..55. -/
def v2_u (s : timestamp_entry_storage) : Int :=
  s.bytes48

/-- The common header fields are stored in unsigned short, so a record
decoded from disk has all four below 2^16. -/
def Wf (s : timestamp_entry_storage) : Prop :=
  s.version < 65536 ∧ s.size < 65536 ∧ s.type < 65536 ∧ s.flags < 65536

/-- Output channels of the tool. -/
inductive Chan
  | out
  | err
deriving DecidableEq, Repr

/-- One token of the flags line: a recognized flag name, or the residual
unrecognized bits rendered in hexadecimal. -/
inductive FlagTok
  | name (s : String)
  | hex (residual : Nat)
deriving DecidableEq, Repr

/-- Result of type2string: a symbolic type name, or the hexadecimal
fallback tag "UNKNOWN (0x%x)" for an unrecognized type. -/
inductive TypeName
  | sym (s : String)
  | unknownHex (raw : Nat)
deriving DecidableEq, Repr

/-- One line of output: each printf / sudo_warnx / sudo_fatal of the tool
becomes one item. -/
inductive Item
  | readError
  | seekError (nbytes : Int)
  | wrongSizeV1 (pos : Int) (got : Nat) (expected : Nat)
  | wrongSizeV2 (pos : Int) (got : Nat) (expected : Nat)
  | unknownVersion (version : Nat) (pos : Int)
  | unexpectedVersion (version : Nat)
  | position (pos : Int)
  | versionLine (v : Nat)
  | sizeLine (n : Nat)
  | typeLine (t : TypeName)
  | flagsLine (toks : List FlagTok)
  | authUid (uid : Int)
  | sessionId (sid : Int)
  | startTime (sec : Int)
  | timeStamp (sec : Int)
  | terminalName (s : String)
  | terminalDev (dev : Int)
  | parentPid (pid : Int)
  | blank
deriving DecidableEq, Repr

/-- valid_entry (tsdump.c lines 159..187): structural check of a decoded
slot.  Returns the boolean verdict together with the diagnostics emitted;
the diagnostics are printed with printf, hence on Chan.out.  The record is
only read, never written. -/
def valid_entry (u : timestamp_entry_storage) (pos : Int) :
    Bool × List (Chan × Item) :=
  if u.version = 1 then
    if u.size ≠ sizeof_timestamp_entry_v1 then
      (false, [(Chan.out, Item.wrongSizeV1 pos u.size sizeof_timestamp_entry_v1)])
    else
      (true, [])
  else if u.version = 2 then
    if u.size ≠ sizeof_timestamp_entry then
      (false, [(Chan.out, Item.wrongSizeV2 pos u.size sizeof_timestamp_entry)])
    else
      (true, [])
  else
    (false, [(Chan.out, Item.unknownVersion u.version pos)])

/-- type2string (tsdump.c lines 189..207): symbolic name of a record type,
with a hexadecimal fallback for unrecognized values. -/
def type2string (type : Nat) : TypeName :=
  if type = TS_LOCKEXCL then TypeName.sym "TS_LOCKEXCL"
  else if type = TS_GLOBAL then TypeName.sym "TS_GLOBAL"
  else if type = TS_TTY then TypeName.sym "TS_TTY"
  else if type = TS_PPID then TypeName.sym "TS_PPID"
  else TypeName.unknownHex type

/-- print_flags (tsdump.c lines 209..232): emits the flags line.  Each
recognized flag that is set contributes its name and is cleared from the
local copy; a nonzero residue is rendered in hexadecimal.  The flag values
come from an unsigned short, so the C clear with the promoted-int mask
~TS_DISABLED acts as the 16-bit mask 0xFFFE (and ~TS_ANYUID as 0xFFFD)
on the values that can occur.  The "first" separator logic of the source
is represented by the order of the token list. -/
def print_flags (flags : Nat) : Item :=
  let toks : List FlagTok := []
  let toks := if flags &&& TS_DISABLED ≠ 0 then toks ++ [FlagTok.name "TS_DISABLED"] else toks
  let flags1 := if flags &&& TS_DISABLED ≠ 0 then flags &&& 0xFFFE else flags
  let toks := if flags1 &&& TS_ANYUID ≠ 0 then toks ++ [FlagTok.name "TS_ANYUID"] else toks
  let flags2 := if flags1 &&& TS_ANYUID ≠ 0 then flags1 &&& 0xFFFD else flags1
  let toks := if flags2 ≠ 0 then toks ++ [FlagTok.hex flags2] else toks
  Item.flagsLine toks

/-- The v1-to-v2 migration block of convert_entry (tsdump.c lines
250..261), executed in place on the union storage.  The source first takes
a complete snapshot (memcpy of the whole union into `orig`) and then reads
every source field from the snapshot while writing into the v2 layout of
`record`: clearing v2.start_time (bytes 16..31) overwrites v1.ts, and
writing v2.ts (bytes 32..47) overwrites v1.u, so the snapshot is what
keeps the copies reading original values. -/
def migrate_v1 (record0 : timestamp_entry_storage) : timestamp_entry_storage :=
  let orig := record0
  let record := { record0 with auth_uid := orig.auth_uid }
  let record := { record with sid := orig.sid }
  let record := { record with bytes16 := 0, bytes24 := 0 }
  let record := { record with bytes32 := orig.bytes16, bytes40 := orig.bytes24 }
  if record.type = TS_TTY then { record with bytes48 := orig.bytes32 }
  else if record.type = TS_PPID then { record with bytes48 := orig.bytes32 }
  else { record with bytes48 := 0 }

/-- The time adjustment tail of convert_entry (tsdump.c lines 264..272):
on Linux builds, a set start_time is rebased by the offset; a set primary
timestamp is rebased unconditionally.  The `linux` flag models the
`#ifdef __linux__` guard. -/
def adjust_times (linux : Bool) (off : Timespec) (record0 : timestamp_entry_storage) :
    timestamp_entry_storage :=
  let record :=
    if linux && sudo_timespecisset (v2_start_time record0) then
      let t := sudo_timespecadd (v2_start_time record0) off
      { record0 with bytes16 := t.tv_sec, bytes24 := t.tv_nsec }
    else record0
  if sudo_timespecisset (v2_ts record) then
    let t := sudo_timespecadd (v2_ts record) off
    { record with bytes32 := t.tv_sec, bytes40 := t.tv_nsec }
  else record

/-- convert_entry (tsdump.c lines 238..275): migrate an older record to the
current schema and rebase its timestamps.  Returns the converted record
(none when the version is neither current nor 1, the Skip case) together
with the warning emitted in the Skip case (sudo_warnx, hence Chan.err). -/
def convert_entry (linux : Bool) (off : Timespec) (record : timestamp_entry_storage) :
    Option timestamp_entry_storage × List (Chan × Item) :=
  if record.version ≠ TS_VERSION then
    if record.version ≠ 1 then
      (none, [(Chan.err, Item.unexpectedVersion record.version)])
    else
      (some (adjust_times linux off (migrate_v1 record)), [])
  else
    (some (adjust_times linux off record), [])

/-- dump_entry (tsdump.c lines 277..305): render one current-schema record
to standard output.  `ttyname` models sudo_ttyname_dev: resolution of a
device number to a terminal name, which can fail. -/
def dump_entry (ttyname : Int → Option String) (entry : timestamp_entry_storage)
    (pos : Int) : List (Chan × Item) :=
  [(Chan.out, Item.position pos),
   (Chan.out, Item.versionLine entry.version),
   (Chan.out, Item.sizeLine entry.size),
   (Chan.out, Item.typeLine (type2string entry.type)),
   (Chan.out, print_flags entry.flags),
   (Chan.out, Item.authUid entry.auth_uid),
   (Chan.out, Item.sessionId entry.sid)]
  ++ (if sudo_timespecisset (v2_start_time entry) then
        [(Chan.out, Item.startTime (v2_start_time entry).tv_sec)] else [])
  ++ (if sudo_timespecisset (v2_ts entry) then
        [(Chan.out, Item.timeStamp (v2_ts entry).tv_sec)] else [])
  ++ (if entry.type = TS_TTY then
        match ttyname (v2_u entry) with
        | none => [(Chan.out, Item.terminalDev (v2_u entry))]
        | some name => [(Chan.out, Item.terminalName name)]
      else if entry.type = TS_PPID then
        [(Chan.out, Item.parentPid (v2_u entry))]
      else [])
  ++ [(Chan.out, Item.blank)]

/-- Result of one read(2) on the time stamp file: `bytes n slot` is a read
returning `n` bytes with `slot` the resulting buffer contents, `ioError` a
read returning -1. -/
inductive ReadResult
  | bytes (nread : Nat) (slot : timestamp_entry_storage)
  | ioError
deriving Repr

/-- Outcome of one iteration of the scan loop of main: the loop breaks
(end of stream, main returns 0), the program aborts via sudo_fatal
(exit 1, with the output emitted during the iteration), or the loop
continues at a new cursor position with the output emitted. -/
inductive StepResult
  | endScan
  | fatal (output : List (Chan × Item))
  | next (newPos : Int) (output : List (Chan × Item))
deriving DecidableEq, Repr

/-- The cursor position after a continuing iteration. -/
def StepResult.cursor : StepResult → Option Int
  | .next p _ => some p
  | _ => none

/-- The output emitted during an iteration. -/
def StepResult.output : StepResult → List (Chan × Item)
  | .next _ o => o
  | .fatal o => o
  | .endScan => []

/-- One iteration of the scan loop of main (tsdump.c lines 132..154).
`pos` is the cursor position noted before the read (lseek SEEK_CUR).
A zero-byte read breaks the loop; a failed read is fatal.  Otherwise the
slot is validated (diagnostics emitted now); if the declared size is
nonzero and differs from the slot size, the cursor is realigned by
`size - sizeof(cur)` relative to the position after the read, fatally if
that seek fails (negative target); finally a valid record is converted
and, unless conversion skipped it, rendered at the pre-read position. -/
def scan_step (linux : Bool) (off : Timespec) (ttyname : Int → Option String)
    (pos : Int) (r : ReadResult) : StepResult :=
  match r with
  | .ioError => .fatal [(Chan.err, Item.readError)]
  | .bytes 0 _ => .endScan
  | .bytes (n+1) slot =>
    let vres := valid_entry slot pos
    let doSeek := slot.size ≠ 0 ∧ slot.size ≠ sizeof_storage
    let target : Int :=
      if doSeek then (pos + (n+1 : Nat)) + ((slot.size : Int) - (sizeof_storage : Int))
      else pos + (n+1 : Nat)
    if doSeek ∧ target < 0 then
      .fatal (vres.2 ++ [(Chan.err, Item.seekError ((slot.size : Int) - (sizeof_storage : Int)))])
    else if vres.1 then
      match convert_entry linux off slot with
      | (none, w) => .next target (vres.2 ++ w)
      | (some rec2, w) => .next target (vres.2 ++ w ++ dump_entry ttyname rec2 pos)
    else
      .next target vres.2

/-- The whole scan loop of main, folded over a list of read results:
returns the exit status (0 for a clean end of stream, 1 for a fatal abort)
and the concatenated output. -/
def scan_run (linux : Bool) (off : Timespec) (ttyname : Int → Option String) :
    Int → List ReadResult → Nat × List (Chan × Item)
  | _, [] => (0, [])
  | pos, r :: rs =>
    match scan_step linux off ttyname pos r with
    | .endScan => (0, [])
    | .fatal out => (1, out)
    | .next p out =>
      let rest := scan_run linux off ttyname p rs
      (rest.1, out ++ rest.2)

/-- The migration of a v1 record as one pure function of the original
record, written from the spec's description of the migrator: identity
fields and the primary timestamp are taken from the original, start_time
is the unset sentinel, and the scope value is copied only for the TTY and
PPID types.  To be compared with the in-place `migrate_v1` from the
source. -/
def migrate_v1_of_original (s : timestamp_entry_storage) : timestamp_entry_storage :=
  { version := s.version, size := s.size, type := s.type, flags := s.flags,
    auth_uid := s.auth_uid, sid := s.sid,
    bytes16 := 0, bytes24 := 0,
    bytes32 := s.bytes16, bytes40 := s.bytes24,
    bytes48 := if s.type = TS_TTY ∨ s.type = TS_PPID then s.bytes32 else 0 }

/-- The token list carried by a flags line item (empty for any other
item). -/
def flagsLineToks : Item → List FlagTok
  | Item.flagsLine toks => toks
  | _ => []

lemma testBit_zero_of_land_one (f : Nat) (h : f &&& 1 = 0) : f.testBit 0 = false := by
  have h2 := congrArg (fun x => Nat.testBit x 0) h
  simpa [Nat.testBit_land] using h2

lemma testBit_one_of_land_two (f : Nat) (h : f &&& 2 = 0) : f.testBit 1 = false := by
  have h2 := congrArg (fun x => Nat.testBit x 1) h
  simpa [Nat.testBit_land, show Nat.testBit 2 1 = true from by decide] using h2

lemma land_FFFE_eq (f : Nat) (hf : f < 65536) (h : f &&& 1 = 0) : f &&& 0xFFFE = f := by
  have h0 := testBit_zero_of_land_one f h
  apply Nat.eq_of_testBit_eq
  intro i
  rw [Nat.testBit_land]
  rcases Nat.lt_or_ge i 16 with hi | hi
  · cases hb : f.testBit i
    · simp
    · have hi0 : i ≠ 0 := by
        rintro rfl
        rw [h0] at hb
        exact Bool.noConfusion hb
      have hm : (0xFFFE : Nat).testBit i = true := by
        interval_cases i
        · exact absurd rfl hi0
        all_goals decide
      simp [hm]
  · have hb : f.testBit i = false := by
      apply Nat.testBit_eq_false_of_lt
      calc f < 65536 := hf
        _ = 2 ^ 16 := by norm_num
        _ ≤ 2 ^ i := Nat.pow_le_pow_right (by norm_num) hi
    simp [hb]

lemma land_FFFD_eq (f : Nat) (hf : f < 65536) (h : f &&& 2 = 0) : f &&& 0xFFFD = f := by
  have h1 := testBit_one_of_land_two f h
  apply Nat.eq_of_testBit_eq
  intro i
  rw [Nat.testBit_land]
  rcases Nat.lt_or_ge i 16 with hi | hi
  · cases hb : f.testBit i
    · simp
    · have hi1 : i ≠ 1 := by
        rintro rfl
        rw [h1] at hb
        exact Bool.noConfusion hb
      have hm : (0xFFFD : Nat).testBit i = true := by
        interval_cases i
        · decide
        · exact absurd rfl hi1
        all_goals decide
      simp [hm]
  · have hb : f.testBit i = false := by
      apply Nat.testBit_eq_false_of_lt
      calc f < 65536 := hf
        _ = 2 ^ 16 := by norm_num
        _ ≤ 2 ^ i := Nat.pow_le_pow_right (by norm_num) hi
    simp [hb]

/-- Decomposition of the flags line emitted by print_flags: each
recognized flag name appears exactly when its bit is set in the original
flags value, and the residual token is the original value with both
recognized bits masked off, emitted exactly when it is nonzero. -/
lemma print_flags_toks (f : Nat) (hf : f < 65536) :
    print_flags f = Item.flagsLine
      ((if f &&& TS_DISABLED ≠ 0 then [FlagTok.name "TS_DISABLED"] else []) ++
       (if f &&& TS_ANYUID ≠ 0 then [FlagTok.name "TS_ANYUID"] else []) ++
       (if f &&& 0xFFFC ≠ 0 then [FlagTok.hex (f &&& 0xFFFC)] else [])) := by
  have hFFFC : (0xFFFE : Nat) &&& 0xFFFD = 0xFFFC := by decide
  have hFFFE2 : (0xFFFE : Nat) &&& 2 = 2 := by decide
  have h2of : ((f &&& 0xFFFE) &&& 2) = f &&& 2 := by
    rw [Nat.land_assoc, hFFFE2]
  unfold print_flags TS_DISABLED TS_ANYUID
  by_cases h1 : f &&& 1 = 0 <;> by_cases h2 : f &&& 2 = 0
  · have hm1 : f % 2 = 0 := by rw [← Nat.and_one_is_mod]; exact h1
    have e1 : f &&& 0xFFFC = f := by
      rw [← hFFFC, ← Nat.land_assoc, land_FFFE_eq f hf h1, land_FFFD_eq f hf h2]
    by_cases h3 : f = 0 <;> simp [h1, hm1, h2, e1, h3]
  · have hm1 : f % 2 = 0 := by rw [← Nat.and_one_is_mod]; exact h1
    have e1 : f &&& 0xFFFC = f &&& 0xFFFD := by
      rw [← hFFFC, ← Nat.land_assoc, land_FFFE_eq f hf h1]
    by_cases h3 : f &&& 0xFFFD = 0 <;> simp [h1, hm1, h2, e1, h3]
  · have hm1 : f % 2 = 1 := by
      have hm := Nat.and_one_is_mod f
      rcases Nat.mod_two_eq_zero_or_one f with hz | ho

      · exact absurd (by rw [hm, hz]) h1
      · exact ho
    have e1 : f &&& 0xFFFC = f &&& 0xFFFE := by
      rw [← hFFFC, ← Nat.land_assoc]
      exact land_FFFD_eq (f &&& 0xFFFE)
        (lt_of_le_of_lt Nat.and_le_right (by norm_num))
        (by rw [Nat.land_assoc, hFFFE2]; exact h2)
    by_cases h3 : f &&& 0xFFFE = 0 <;> simp [h1, hm1, h2, h2of, e1, h3]
  · have hm1 : f % 2 = 1 := by
      have hm := Nat.and_one_is_mod f
      rcases Nat.mod_two_eq_zero_or_one f with hz | ho
      · exact absurd (by rw [hm, hz]) h1
      · exact ho
    have e1 : f &&& 0xFFFC = (f &&& 0xFFFE) &&& 0xFFFD := by
      rw [← hFFFC, ← Nat.land_assoc]
    by_cases h3 : (f &&& 0xFFFE) &&& 0xFFFD = 0 <;> simp [h1, hm1, h2, h2of, e1, h3]

/-- C10: the in-place v1-to-v2 migration of convert_entry first snapshots
the whole union and reads every source field from the snapshot while
writing into the overlapping v2 layout, so it equals a pure function of
the original record — no field copy observes a value already overwritten
(clearing v2.start_time overwrites v1.ts, and writing v2.ts overwrites
v1.u, before those fields are read from the snapshot). -/
theorem c10_migration_is_pure (s : timestamp_entry_storage) :
    migrate_v1 s = migrate_v1_of_original s := by
  unfold migrate_v1 migrate_v1_of_original
  by_cases h1 : s.type = TS_TTY
  · simp [h1]
  · by_cases h2 : s.type = TS_PPID <;> simp [h1, h2]

/-- C5: the validator accepts a slot exactly when the version is 1 with
the v1 layout size or 2 with the v2 layout size; in every other case it
rejects with a single diagnostic naming the offset and raw version (for an
unknown version) or the offset, actual size, and expected size (for a size
mismatch).  The validator is a pure function of the slot: it never mutates
the record. -/
theorem c5_validator_spec (s : timestamp_entry_storage) (pos : Int) :
    ((valid_entry s pos).1 = true ↔
      (s.version = 1 ∧ s.size = sizeof_timestamp_entry_v1) ∨
      (s.version = 2 ∧ s.size = sizeof_timestamp_entry)) ∧
    (s.version ≠ 1 → s.version ≠ 2 →
      (valid_entry s pos).2 = [(Chan.out, Item.unknownVersion s.version pos)]) ∧
    (s.version = 1 → s.size ≠ sizeof_timestamp_entry_v1 →
      (valid_entry s pos).2 =
        [(Chan.out, Item.wrongSizeV1 pos s.size sizeof_timestamp_entry_v1)]) ∧
    (s.version = 2 → s.size ≠ sizeof_timestamp_entry →
      (valid_entry s pos).2 =
        [(Chan.out, Item.wrongSizeV2 pos s.size sizeof_timestamp_entry)]) ∧
    ((valid_entry s pos).1 = true → (valid_entry s pos).2 = []) := by
  unfold valid_entry
  by_cases h1 : s.version = 1
  · by_cases hs : s.size = sizeof_timestamp_entry_v1 <;> simp [h1, hs]
  · by_cases h2 : s.version = 2
    · by_cases hs : s.size = sizeof_timestamp_entry <;> simp [h1, h2, hs]
    · simp [h1, h2]

/-- Witness for C5 at concrete inputs: an unknown-version slot, a
wrong-sized v1 slot, and a well-formed v2 slot. -/
theorem c5_validator_spec_witness :
    (valid_entry ⟨7, 0, 0, 0, 0, 0, 0, 0, 0, 0, 0⟩ 5).2 =
      [(Chan.out, Item.unknownVersion 7 5)] ∧
    (valid_entry ⟨1, 12, 0, 0, 0, 0, 0, 0, 0, 0, 0⟩ 3).2 =
      [(Chan.out, Item.wrongSizeV1 3 12 sizeof_timestamp_entry_v1)] ∧
    (valid_entry ⟨2, 56, 0, 0, 0, 0, 0, 0, 0, 0, 0⟩ 0).1 = true :=
  ⟨(c5_validator_spec ⟨7, 0, 0, 0, 0, 0, 0, 0, 0, 0, 0⟩ 5).2.1
      (by decide) (by decide),
   (c5_validator_spec ⟨1, 12, 0, 0, 0, 0, 0, 0, 0, 0, 0⟩ 3).2.2.1
      (by decide) (by decide),
   (c5_validator_spec ⟨2, 56, 0, 0, 0, 0, 0, 0, 0, 0, 0⟩ 0).1.mpr
      (Or.inr ⟨by decide, by decide⟩)⟩

/-- C1 counterexample: an invalid record (unknown version 3) whose
declared size is 100 is followed by a declared-size seek all the same:
after the 56-byte slot read at position 0 the cursor is realigned to 100,
not left at 56 as the claim (seek only for records flagged Valid, advance
invalid records by exactly the fixed slot size) requires. -/
theorem c1_counterexample :
    scan_step false ⟨0, 0⟩ (fun _ => none) 0
      (.bytes 56 ⟨3, 100, 0, 0, 0, 0, 0, 0, 0, 0, 0⟩) =
    .next 100 [(Chan.out, Item.unknownVersion 3 0)] := by decide

/-- C2 counterexample: a read of 4 bytes — nonzero but well short of the
56-byte slot — is not treated as a fatal I/O error: the partially filled
slot (here with version 5) is processed normally and the scan continues at
cursor 4, contradicting the claim that every nonzero incomplete read
aborts the scan. -/
theorem c2_counterexample :
    scan_step false ⟨0, 0⟩ (fun _ => none) 0
      (.bytes 4 ⟨5, 56, 0, 0, 0, 0, 0, 0, 0, 0, 0⟩) =
    .next 4 [(Chan.out, Item.unknownVersion 5 0)] := by decide

/-- C6 counterexample: the structural diagnostic for an invalid record
(unknown version 3) is emitted with printf on standard output, not on the
error channel as the claim requires. -/
theorem c6_counterexample :
    (valid_entry ⟨3, 56, 0, 0, 0, 0, 0, 0, 0, 0, 0⟩ 0).2 =
      [(Chan.out, Item.unknownVersion 3 0)] ∧ Chan.out ≠ Chan.err := by decide

/-- Cursor arithmetic of one scan iteration with a nonzero read: when the
realignment seek cannot fail, the new cursor is the pre-read position plus
the byte count read, plus the declared-size realignment exactly when the
declared size is nonzero and differs from the slot size. -/
lemma scan_step_cursor_eq (linux : Bool) (off : Timespec)
    (ttyname : Int → Option String) (pos : Int) (n : Nat)
    (slot : timestamp_entry_storage) (hn : n ≠ 0)
    (hok : ¬((slot.size ≠ 0 ∧ slot.size ≠ sizeof_storage) ∧
      pos + (n : Int) + ((slot.size : Int) - (sizeof_storage : Int)) < 0)) :
    (scan_step linux off ttyname pos (.bytes n slot)).cursor =
      some (pos + (n : Int) +
        (if slot.size ≠ 0 ∧ slot.size ≠ sizeof_storage
         then (slot.size : Int) - (sizeof_storage : Int) else 0)) := by
  obtain ⟨m, rfl⟩ := Nat.exists_eq_succ_of_ne_zero hn
  unfold scan_step
  by_cases hseek : slot.size ≠ 0 ∧ slot.size ≠ sizeof_storage
  · have htarget : ¬(pos + ((m + 1 : Nat) : Int) +
        ((slot.size : Int) - (sizeof_storage : Int)) < 0) :=
      fun hc => hok ⟨hseek, hc⟩
    have htarget2 : ¬(pos + ((m : Int) + 1) +
        ((slot.size : Int) - (sizeof_storage : Int)) < 0) := by
      push_cast at htarget
      exact htarget
    rcases hconv : convert_entry linux off slot with ⟨o, w⟩
    by_cases hv : (valid_entry slot pos).1 <;> cases o <;>
      simp [hseek, htarget2, hconv, hv, StepResult.cursor]
  · rcases hconv : convert_entry linux off slot with ⟨o, w⟩
    by_cases hv : (valid_entry slot pos).1 <;> cases o <;>
      simp [hseek, hconv, hv, StepResult.cursor]

/-- Output of one scan iteration that reads a valid slot: the validator
emits nothing, so the iteration's output is the converter's warnings
followed by the rendered block of the converted record. -/
lemma scan_step_output_of_valid (linux : Bool) (off : Timespec)
    (ttyname : Int → Option String) (pos : Int) (n : Nat)
    (slot c2 : timestamp_entry_storage) (w : List (Chan × Item))
    (hn : n ≠ 0)
    (hok : ¬((slot.size ≠ 0 ∧ slot.size ≠ sizeof_storage) ∧
      pos + (n : Int) + ((slot.size : Int) - (sizeof_storage : Int)) < 0))
    (hv : valid_entry slot pos = (true, []))
    (hconv : convert_entry linux off slot = (some c2, w)) :
    (scan_step linux off ttyname pos (.bytes n slot)).output =
      w ++ dump_entry ttyname c2 pos := by
  obtain ⟨m, rfl⟩ := Nat.exists_eq_succ_of_ne_zero hn
  unfold scan_step
  by_cases hseek : slot.size ≠ 0 ∧ slot.size ≠ sizeof_storage
  · have htarget : ¬(pos + ((m + 1 : Nat) : Int) +
        ((slot.size : Int) - (sizeof_storage : Int)) < 0) :=
      fun hc => hok ⟨hseek, hc⟩
    have htarget2 : ¬(pos + ((m : Int) + 1) +
        ((slot.size : Int) - (sizeof_storage : Int)) < 0) := by
      push_cast at htarget
      exact htarget
    simp [hseek, htarget2, hv, hconv, StepResult.output]
  · simp [hseek, hv, hconv, StepResult.output]

/-- A slot with a version/size pair the validator recognizes is accepted
with no diagnostics. -/
lemma valid_entry_of_sizes (s : timestamp_entry_storage) (pos : Int)
    (h : (s.version = 1 ∧ s.size = sizeof_timestamp_entry_v1) ∨
      (s.version = 2 ∧ s.size = sizeof_timestamp_entry)) :
    valid_entry s pos = (true, []) := by
  unfold valid_entry
  rcases h with ⟨h1, hs⟩ | ⟨h2, hs⟩
  · simp [h1, hs]
  · simp [h2, hs]

/-- The migration block never writes the flags header field. -/
lemma migrate_v1_flags (s : timestamp_entry_storage) :
    (migrate_v1 s).flags = s.flags := by
  unfold migrate_v1
  simp [apply_ite (fun r : timestamp_entry_storage => r.flags)]

/-- The time adjustments never write the flags header field. -/
lemma adjust_times_flags (linux : Bool) (off : Timespec)
    (r : timestamp_entry_storage) :
    (adjust_times linux off r).flags = r.flags := by
  unfold adjust_times
  simp [apply_ite (fun r : timestamp_entry_storage => r.flags)]

/-- C1 (amended): the scan driver performs the declared-size realignment
seek for every record whose declared size is nonzero and differs from the
slot size, for Valid and Invalid records alike; the validator's verdict
never influences cursor advancement — two slots with the same declared
size advance the cursor identically whatever their versions. -/
theorem c1_seek_by_size_regardless_of_validity (linux : Bool) (off : Timespec)
    (ttyname : Int → Option String) (pos : Int) (n : Nat)
    (slot slot2 : timestamp_entry_storage) (hn : n ≠ 0)
    (hsz : slot2.size = slot.size)
    (hok : ¬((slot.size ≠ 0 ∧ slot.size ≠ sizeof_storage) ∧
      pos + (n : Int) + ((slot.size : Int) - (sizeof_storage : Int)) < 0)) :
    (scan_step linux off ttyname pos (.bytes n slot)).cursor =
      some (pos + (n : Int) +
        (if slot.size ≠ 0 ∧ slot.size ≠ sizeof_storage
         then (slot.size : Int) - (sizeof_storage : Int) else 0)) ∧
    (scan_step linux off ttyname pos (.bytes n slot2)).cursor =
      (scan_step linux off ttyname pos (.bytes n slot)).cursor := by
  constructor
  · exact scan_step_cursor_eq linux off ttyname pos n slot hn hok
  · rw [scan_step_cursor_eq linux off ttyname pos n slot hn hok,
        scan_step_cursor_eq linux off ttyname pos n slot2 hn (by rw [hsz]; exact hok),
        hsz]

/-- Witness for C1 (amended): the invalid version-3 record with declared
size 100 from the counterexample, and a valid v2 record of the same
declared size, advance the cursor identically to 100. -/
theorem c1_seek_witness :
    (scan_step false ⟨0, 0⟩ (fun _ => none) 0
      (.bytes 56 ⟨3, 100, 0, 0, 0, 0, 0, 0, 0, 0, 0⟩)).cursor = some 100 ∧
    (scan_step false ⟨0, 0⟩ (fun _ => none) 0
      (.bytes 56 ⟨2, 100, 0, 0, 0, 0, 0, 0, 0, 0, 0⟩)).cursor =
    (scan_step false ⟨0, 0⟩ (fun _ => none) 0
      (.bytes 56 ⟨3, 100, 0, 0, 0, 0, 0, 0, 0, 0, 0⟩)).cursor := by
  have h := c1_seek_by_size_regardless_of_validity false ⟨0, 0⟩ (fun _ => none) 0 56
    ⟨3, 100, 0, 0, 0, 0, 0, 0, 0, 0, 0⟩ ⟨2, 100, 0, 0, 0, 0, 0, 0, 0, 0, 0⟩
    (by decide) (by decide) (by decide)
  refine ⟨?_, h.2⟩
  rw [h.1]
  decide

/-- C9: the realignment seek happens only when the declared size is both
nonzero and different from the fixed slot size.  After a full-slot read,
a record with declared size zero (or equal to the slot size) leaves the
cursor exactly one slot past where the record began; a record with any
other declared size moves the cursor to the record start plus its declared
size. -/
theorem c9_seek_only_when_size_differs (linux : Bool) (off : Timespec)
    (ttyname : Int → Option String) (pos : Int)
    (slot : timestamp_entry_storage) (hpos : 0 ≤ pos) :
    (slot.size = 0 →
      (scan_step linux off ttyname pos (.bytes sizeof_storage slot)).cursor =
        some (pos + (sizeof_storage : Int))) ∧
    (slot.size = sizeof_storage →
      (scan_step linux off ttyname pos (.bytes sizeof_storage slot)).cursor =
        some (pos + (sizeof_storage : Int))) ∧
    (slot.size ≠ 0 → slot.size ≠ sizeof_storage →
      (scan_step linux off ttyname pos (.bytes sizeof_storage slot)).cursor =
        some (pos + (slot.size : Int))) := by
  have hns : sizeof_storage ≠ 0 := by decide
  refine ⟨?_, ?_, ?_⟩
  · intro h0
    rw [scan_step_cursor_eq linux off ttyname pos sizeof_storage slot hns
      (by rintro ⟨⟨ha, _⟩, _⟩; exact ha h0)]
    simp [h0]
  · intro h0
    rw [scan_step_cursor_eq linux off ttyname pos sizeof_storage slot hns
      (by rintro ⟨⟨_, ha⟩, _⟩; exact ha h0)]
    simp [h0]
  · intro h0 hs
    rw [scan_step_cursor_eq linux off ttyname pos sizeof_storage slot hns
      (by rintro ⟨_, hc⟩; omega)]
    rw [if_pos ⟨h0, hs⟩]
    congr 1
    omega

/-- Witness for C9: a valid-sized v1 record (size 40) read in a full
56-byte slot at position 10 puts the cursor at 50 = 10 + 40; a zero-sized
record leaves it at 66 = 10 + 56. -/
theorem c9_seek_witness :
    (scan_step false ⟨0, 0⟩ (fun _ => none) 10
      (.bytes sizeof_storage ⟨1, 40, 0, 0, 0, 0, 0, 0, 0, 0, 0⟩)).cursor =
      some 50 ∧
    (scan_step false ⟨0, 0⟩ (fun _ => none) 10
      (.bytes sizeof_storage ⟨1, 0, 0, 0, 0, 0, 0, 0, 0, 0, 0⟩)).cursor =
      some 66 := by
  have h1 := (c9_seek_only_when_size_differs false ⟨0, 0⟩ (fun _ => none) 10
    ⟨1, 40, 0, 0, 0, 0, 0, 0, 0, 0, 0⟩ (by decide)).2.2 (by decide) (by decide)
  have h2 := (c9_seek_only_when_size_differs false ⟨0, 0⟩ (fun _ => none) 10
    ⟨1, 0, 0, 0, 0, 0, 0, 0, 0, 0, 0⟩ (by decide)).1 (by decide)
  refine ⟨?_, ?_⟩
  · rw [h1]; decide
  · rw [h2]; decide

/-- C2 (amended): a read returning zero bytes ends the scan as a normal
end of stream with exit status 0; a failed read (-1) is a fatal I/O error;
but a read yielding a nonzero byte count — even fewer bytes than a full
slot — is not treated as an I/O error: the slot buffer is processed
normally, and the iteration can only abort through a failed realignment
seek. -/
theorem c2_read_semantics (linux : Bool) (off : Timespec)
    (ttyname : Int → Option String) (pos : Int) (n : Nat)
    (slot : timestamp_entry_storage) (rs : List ReadResult) (hn : n ≠ 0) :
    scan_step linux off ttyname pos .ioError =
      .fatal [(Chan.err, Item.readError)] ∧
    scan_step linux off ttyname pos (.bytes 0 slot) = .endScan ∧
    scan_run linux off ttyname pos (.bytes 0 slot :: rs) = (0, []) ∧
    ((scan_step linux off ttyname pos (.bytes n slot)).cursor.isSome = true ∨
      scan_step linux off ttyname pos (.bytes n slot) =
        .fatal ((valid_entry slot pos).2 ++
          [(Chan.err, Item.seekError
            ((slot.size : Int) - (sizeof_storage : Int)))])) := by
  obtain ⟨m, rfl⟩ := Nat.exists_eq_succ_of_ne_zero hn
  refine ⟨rfl, rfl, by simp [scan_run, scan_step], ?_⟩
  by_cases hfat : (slot.size ≠ 0 ∧ slot.size ≠ sizeof_storage) ∧
      pos + ((m + 1 : Nat) : Int) + ((slot.size : Int) - (sizeof_storage : Int)) < 0
  · right
    have h2 : pos + ((m : Int) + 1) +
        ((slot.size : Int) - (sizeof_storage : Int)) < 0 := by
      have := hfat.2
      push_cast at this
      exact this
    unfold scan_step
    simp [hfat.1, h2]
  · left
    rw [scan_step_cursor_eq linux off ttyname pos (m + 1) slot (by omega)
      (by rintro ⟨ha, hb⟩; exact hfat ⟨ha, hb⟩)]
    rfl

/-- Witness for C2 (amended) at concrete inputs: the end-of-stream,
fatal-read, and short-read cases of the trichotomy, with the short read
processed (cursor defined). -/
theorem c2_read_semantics_witness :
    scan_step false ⟨0, 0⟩ (fun _ => none) 0 .ioError =
      .fatal [(Chan.err, Item.readError)] ∧
    scan_run false ⟨0, 0⟩ (fun _ => none) 0
      (.bytes 0 ⟨0, 0, 0, 0, 0, 0, 0, 0, 0, 0, 0⟩ :: [.ioError]) = (0, []) ∧
    ((scan_step false ⟨0, 0⟩ (fun _ => none) 0
      (.bytes 4 ⟨5, 56, 0, 0, 0, 0, 0, 0, 0, 0, 0⟩)).cursor.isSome = true ∨
      scan_step false ⟨0, 0⟩ (fun _ => none) 0
        (.bytes 4 ⟨5, 56, 0, 0, 0, 0, 0, 0, 0, 0, 0⟩) =
        .fatal ((valid_entry ⟨5, 56, 0, 0, 0, 0, 0, 0, 0, 0, 0⟩ 0).2 ++
          [(Chan.err, Item.seekError
            ((((⟨5, 56, 0, 0, 0, 0, 0, 0, 0, 0, 0⟩ :
              timestamp_entry_storage).size : Int)) -
              (sizeof_storage : Int)))])) := by
  have h := c2_read_semantics false ⟨0, 0⟩ (fun _ => none) 0 4
    ⟨5, 56, 0, 0, 0, 0, 0, 0, 0, 0, 0⟩ [.ioError] (by decide)
  exact ⟨h.1, h.2.2.1, h.2.2.2⟩

/-- C3: migrating a version-1 record preserves auth_uid, the session id
and the primary timestamp exactly, sets start_time to the all-zero unset
sentinel, copies the scope value only for the TTY and PPID types and
zeroes it otherwise; and for a record whose version is neither 1 nor the
current version, convert_entry returns the Skip result (none), so the
scan driver drops the record without rendering it. -/
theorem c3_v1_migration (linux : Bool) (off : Timespec)
    (s : timestamp_entry_storage) :
    (s.version = 1 →
      (migrate_v1 s).auth_uid = s.auth_uid ∧
      (migrate_v1 s).sid = s.sid ∧
      v2_ts (migrate_v1 s) = v1_ts s ∧
      v2_start_time (migrate_v1 s) = ⟨0, 0⟩ ∧
      ((s.type = TS_TTY ∨ s.type = TS_PPID) →
        v2_u (migrate_v1 s) = v1_u s) ∧
      (s.type ≠ TS_TTY → s.type ≠ TS_PPID → v2_u (migrate_v1 s) = 0)) ∧
    (s.version ≠ 1 → s.version ≠ TS_VERSION →
      (convert_entry linux off s).1 = none) := by
  constructor
  · intro _
    unfold migrate_v1 v2_ts v1_ts v2_start_time v2_u v1_u
    by_cases h1 : s.type = TS_TTY
    · simp [h1]
    · by_cases h2 : s.type = TS_PPID <;> simp [h1, h2]
  · intro hv1 hv2
    unfold convert_entry
    simp [hv1, hv2]

/-- Witness for C3: a version-1 TTY record with distinct field values is
migrated with identity fields, timestamp and scope preserved and
start_time cleared; a version-7 record is skipped. -/
theorem c3_v1_migration_witness :
    (migrate_v1 ⟨1, 40, 2, 0, 1000, 42, 11, 22, 33, 44, 55⟩).auth_uid = 1000 ∧
    v2_ts (migrate_v1 ⟨1, 40, 2, 0, 1000, 42, 11, 22, 33, 44, 55⟩) = ⟨11, 22⟩ ∧
    v2_start_time (migrate_v1 ⟨1, 40, 2, 0, 1000, 42, 11, 22, 33, 44, 55⟩) = ⟨0, 0⟩ ∧
    v2_u (migrate_v1 ⟨1, 40, 2, 0, 1000, 42, 11, 22, 33, 44, 55⟩) = 33 ∧
    (convert_entry false ⟨0, 0⟩ ⟨7, 40, 0, 0, 0, 0, 0, 0, 0, 0, 0⟩).1 = none := by
  have hT := c3_v1_migration false ⟨0, 0⟩ ⟨1, 40, 2, 0, 1000, 42, 11, 22, 33, 44, 55⟩
  have hU := c3_v1_migration false ⟨0, 0⟩ ⟨7, 40, 0, 0, 0, 0, 0, 0, 0, 0, 0⟩
  have h1 := hT.1 (by decide)
  refine ⟨h1.1, h1.2.2.1, h1.2.2.2.1, ?_, hU.2 (by decide) (by decide)⟩
  have h5 := h1.2.2.2.2.1 (Or.inl (by decide))
  simpa using h5

/-- C4: for a current-schema (version 2) record, the validate → migrate
(no-op) → normalize pipeline of convert_entry leaves every field unchanged
except the two timestamps: under the Linux configuration each timestamp
that is set becomes the original value plus the one-time offset, and a
timestamp that is the all-zero unset sentinel passes through unchanged,
never time-adjusted.  No warning is emitted.  (valid_entry is pure, so
validation changes nothing; the migration branch is skipped for the
current version.) -/
theorem c4_v2_pipeline (linux : Bool) (off : Timespec)
    (s : timestamp_entry_storage) (hv : s.version = TS_VERSION)
    (hlinux : linux = true) :
    (convert_entry linux off s).2 = [] ∧
    (convert_entry linux off s).1.map timestamp_entry_storage.version =
      some s.version ∧
    (convert_entry linux off s).1.map timestamp_entry_storage.size =
      some s.size ∧
    (convert_entry linux off s).1.map timestamp_entry_storage.type =
      some s.type ∧
    (convert_entry linux off s).1.map timestamp_entry_storage.flags =
      some s.flags ∧
    (convert_entry linux off s).1.map timestamp_entry_storage.auth_uid =
      some s.auth_uid ∧
    (convert_entry linux off s).1.map timestamp_entry_storage.sid =
      some s.sid ∧
    (convert_entry linux off s).1.map v2_u = some (v2_u s) ∧
    (convert_entry linux off s).1.map v2_start_time =
      some (if sudo_timespecisset (v2_start_time s)
            then sudo_timespecadd (v2_start_time s) off
            else v2_start_time s) ∧
    (convert_entry linux off s).1.map v2_ts =
      some (if sudo_timespecisset (v2_ts s)
            then sudo_timespecadd (v2_ts s) off
            else v2_ts s) := by
  subst hlinux
  unfold convert_entry
  rw [if_neg (by simp [hv])]
  unfold adjust_times v2_start_time v2_ts v2_u
  by_cases hst : sudo_timespecisset ⟨s.bytes16, s.bytes24⟩ <;>
    by_cases hts : sudo_timespecisset ⟨s.bytes32, s.bytes40⟩ <;>
      simp [hst, hts]

/-- Witness for C4: a v2 TTY record with start_time unset and timestamp
(100, 5), normalized with offset (10, 20): timestamp becomes (110, 25),
start_time stays unset, and the other fields are untouched. -/
theorem c4_v2_pipeline_witness :
    (convert_entry true ⟨10, 20⟩ ⟨2, 56, 1, 0, 7, 8, 0, 0, 100, 5, 77⟩).2 = [] ∧
    (convert_entry true ⟨10, 20⟩
      ⟨2, 56, 1, 0, 7, 8, 0, 0, 100, 5, 77⟩).1.map v2_ts = some ⟨110, 25⟩ ∧
    (convert_entry true ⟨10, 20⟩
      ⟨2, 56, 1, 0, 7, 8, 0, 0, 100, 5, 77⟩).1.map v2_start_time =
      some ⟨0, 0⟩ ∧
    (convert_entry true ⟨10, 20⟩
      ⟨2, 56, 1, 0, 7, 8, 0, 0, 100, 5, 77⟩).1.map
        timestamp_entry_storage.auth_uid = some 7 := by
  have h := c4_v2_pipeline true ⟨10, 20⟩ ⟨2, 56, 1, 0, 7, 8, 0, 0, 100, 5, 77⟩
    (by decide) rfl
  refine ⟨h.1, ?_, ?_, h.2.2.2.2.2.1⟩
  · rw [h.2.2.2.2.2.2.2.2.2]
    decide
  · rw [h.2.2.2.2.2.2.2.2.1]
    decide

/-- C6 (amended): the validator's structural diagnostics go to standard
output — the same channel as the rendered record blocks — not to the error
channel; only the migrator's unexpected-version warning (and the fatal
read/seek messages) use the error channel. -/
theorem c6_diagnostic_channels (s e : timestamp_entry_storage) (pos : Int)
    (linux : Bool) (off : Timespec) (ttyname : Int → Option String) :
    ((valid_entry s pos).2.all fun ci => ci.1 == Chan.out) = true ∧
    ((dump_entry ttyname e pos).all fun ci => ci.1 == Chan.out) = true ∧
    ((convert_entry linux off s).2.all fun ci => ci.1 == Chan.err) = true := by
  refine ⟨?_, ?_, ?_⟩
  · unfold valid_entry
    split_ifs <;> simp
  · unfold dump_entry
    rcases htty : ttyname (v2_u e) with _ | name <;>
      split_ifs <;> simp [htty, List.all_append]
  · unfold convert_entry
    split_ifs <;> simp

/-- C7: the renderer emits, in order: stream offset, version, declared
size, symbolic type name (hexadecimal fallback for types that are none of
the four known ones), the flags line (each recognized flag name present,
then the residual unrecognized bits in hexadecimal when nonzero, nothing
when no flags at all), auth_uid, session id, start_time only when set,
timestamp only when set, the type-specific trailer (terminal name with a
raw-device fallback for TTY, the parent pid for PPID, nothing otherwise),
and a terminating blank line. -/
theorem c7_render_order (ttyname : Int → Option String)
    (e : timestamp_entry_storage) (pos : Int) (hf : e.flags < 65536) :
    dump_entry ttyname e pos =
      [(Chan.out, Item.position pos),
       (Chan.out, Item.versionLine e.version),
       (Chan.out, Item.sizeLine e.size),
       (Chan.out, Item.typeLine (type2string e.type)),
       (Chan.out, print_flags e.flags),
       (Chan.out, Item.authUid e.auth_uid),
       (Chan.out, Item.sessionId e.sid)]
      ++ (if sudo_timespecisset (v2_start_time e) then
            [(Chan.out, Item.startTime (v2_start_time e).tv_sec)] else [])
      ++ (if sudo_timespecisset (v2_ts e) then
            [(Chan.out, Item.timeStamp (v2_ts e).tv_sec)] else [])
      ++ (if e.type = TS_TTY then
            (match ttyname (v2_u e) with
             | none => [(Chan.out, Item.terminalDev (v2_u e))]
             | some name => [(Chan.out, Item.terminalName name)])
          else if e.type = TS_PPID then
            [(Chan.out, Item.parentPid (v2_u e))]
          else [])
      ++ [(Chan.out, Item.blank)] ∧
    print_flags e.flags = Item.flagsLine
      ((if e.flags &&& TS_DISABLED ≠ 0 then [FlagTok.name "TS_DISABLED"] else []) ++
       (if e.flags &&& TS_ANYUID ≠ 0 then [FlagTok.name "TS_ANYUID"] else []) ++
       (if e.flags &&& 0xFFFC ≠ 0 then [FlagTok.hex (e.flags &&& 0xFFFC)] else [])) ∧
    (type2string e.type = TypeName.unknownHex e.type ↔
      e.type ≠ TS_GLOBAL ∧ e.type ≠ TS_TTY ∧ e.type ≠ TS_PPID ∧
        e.type ≠ TS_LOCKEXCL) := by
  refine ⟨rfl, print_flags_toks e.flags hf, ?_⟩
  unfold type2string
  split_ifs <;> simp_all

/-- Witness for C7: flags 33 = DISABLED plus the unrecognized bit 32, and
type 9 rendered as the hexadecimal fallback. -/
theorem c7_render_order_witness :
    print_flags 33 = Item.flagsLine
      [FlagTok.name "TS_DISABLED", FlagTok.hex 32] ∧
    type2string 9 = TypeName.unknownHex 9 := by
  have h := c7_render_order (fun _ => none)
    ⟨2, 56, 9, 33, 0, 0, 0, 0, 0, 0, 0⟩ 0 (by decide)
  exact ⟨h.2.1.trans (by decide), h.2.2.mpr (by decide)⟩

/-- C8: every otherwise-valid record — version 1 with the v1 layout size
or version 2 with the v2 layout size — that has the ANYUID flag bit set
is still accepted by the validator, still rendered with the TS_ANYUID
name on its flags line (the flags field survives migration and time
normalization), and the scan continues normally past it: the anomaly is
reported through rendering, never escalated to a validation failure or a
fatal condition. -/
theorem c8_anyuid_is_rendered (linux : Bool) (off : Timespec)
    (ttyname : Int → Option String) (pos : Int)
    (slot : timestamp_entry_storage) (hpos : 0 ≤ pos)
    (hvs : (slot.version = 1 ∧ slot.size = sizeof_timestamp_entry_v1) ∨
      (slot.version = 2 ∧ slot.size = sizeof_timestamp_entry))
    (hflag : slot.flags &&& TS_ANYUID ≠ 0) :
    (valid_entry slot pos).1 = true ∧
    (scan_step linux off ttyname pos (.bytes sizeof_storage slot)).cursor =
      some (pos + (slot.size : Int)) ∧
    (Chan.out, print_flags slot.flags) ∈
      (scan_step linux off ttyname pos (.bytes sizeof_storage slot)).output ∧
    FlagTok.name "TS_ANYUID" ∈ flagsLineToks (print_flags slot.flags) := by
  have hS : sizeof_storage = 56 := rfl
  have hv : valid_entry slot pos = (true, []) := valid_entry_of_sizes slot pos hvs
  have hflag2 : slot.flags &&& 2 ≠ 0 := by
    simpa [TS_ANYUID] using hflag
  have hok : ¬((slot.size ≠ 0 ∧ slot.size ≠ sizeof_storage) ∧
      pos + ((sizeof_storage : Nat) : Int) +
        ((slot.size : Int) - (sizeof_storage : Int)) < 0) := by
    rintro ⟨_, hc⟩
    rw [hS] at hc
    push_cast at hc
    omega
  refine ⟨by rw [hv], ?_, ?_, ?_⟩
  · rw [scan_step_cursor_eq linux off ttyname pos sizeof_storage slot
      (by decide) hok]
    rcases hvs with ⟨h1, hs⟩ | ⟨h2, hs⟩
    · rw [if_pos ⟨by rw [hs]; decide, by rw [hs, hS]; decide⟩]
      congr 1
      ring
    · rw [if_neg (by rintro ⟨_, hb⟩; exact hb (by rw [hs]; rfl))]
      rw [hs]
      simp [hS, sizeof_timestamp_entry]
  · rcases hvs with ⟨h1, hs⟩ | ⟨h2, hs⟩
    · have hconv : convert_entry linux off slot =
          (some (adjust_times linux off (migrate_v1 slot)), []) := by
        unfold convert_entry
        simp [h1, TS_VERSION]
      rw [scan_step_output_of_valid linux off ttyname pos sizeof_storage
        slot _ _ (by decide) hok hv hconv]
      simp [dump_entry, adjust_times_flags, migrate_v1_flags]
    · have hconv : convert_entry linux off slot =
          (some (adjust_times linux off slot), []) := by
        unfold convert_entry
        rw [if_neg (by simp [h2, TS_VERSION])]
      rw [scan_step_output_of_valid linux off ttyname pos sizeof_storage
        slot _ _ (by decide) hok hv hconv]
      simp [dump_entry, adjust_times_flags]
  · have hFFFE2 : (0xFFFE : Nat) &&& 2 = 2 := by decide
    unfold flagsLineToks print_flags TS_ANYUID TS_DISABLED
    by_cases h1 : slot.flags &&& 1 = 0
    · have hm1 : slot.flags % 2 = 0 := by
        rw [← Nat.and_one_is_mod]
        exact h1
      by_cases h3 : slot.flags &&& 0xFFFD = 0 <;>
        simp [h1, hm1, hflag2, h3]
    · have hm1 : slot.flags % 2 = 1 := by
        have hm := Nat.and_one_is_mod slot.flags
        rcases Nat.mod_two_eq_zero_or_one slot.flags with hz | ho
        · exact absurd (by rw [hm, hz]) h1
        · exact ho
      have h2f : (slot.flags &&& 0xFFFE) &&& 2 = slot.flags &&& 2 := by
        rw [Nat.land_assoc, hFFFE2]
      by_cases h3 : (slot.flags &&& 0xFFFE) &&& 0xFFFD = 0 <;>
        simp [h1, hm1, h2f, hflag2, h3]

/-- Witness for C8: a version-1 PPID record of size 40 with
flags = TS_ANYUID, read as a full slot at position 0, is validated,
rendered with the TS_ANYUID token, and the cursor moves to 40; a v2
record with the same flag is likewise validated and rendered, with the
cursor moving to 56. -/
theorem c8_anyuid_is_rendered_witness :
    (valid_entry ⟨1, 40, 3, 2, 5, 6, 7, 8, 9, 10, 11⟩ 0).1 = true ∧
    (scan_step false ⟨0, 0⟩ (fun _ => none) 0
      (.bytes sizeof_storage ⟨1, 40, 3, 2, 5, 6, 7, 8, 9, 10, 11⟩)).cursor =
      some 40 ∧
    (Chan.out, print_flags 2) ∈
      (scan_step false ⟨0, 0⟩ (fun _ => none) 0
        (.bytes sizeof_storage ⟨1, 40, 3, 2, 5, 6, 7, 8, 9, 10, 11⟩)).output ∧
    FlagTok.name "TS_ANYUID" ∈ flagsLineToks (print_flags 2) ∧
    (valid_entry ⟨2, 56, 1, 2, 0, 0, 0, 0, 0, 0, 0⟩ 0).1 = true ∧
    (scan_step false ⟨0, 0⟩ (fun _ => none) 0
      (.bytes sizeof_storage ⟨2, 56, 1, 2, 0, 0, 0, 0, 0, 0, 0⟩)).cursor =
      some 56 := by
  have h1 := c8_anyuid_is_rendered false ⟨0, 0⟩ (fun _ => none) 0
    ⟨1, 40, 3, 2, 5, 6, 7, 8, 9, 10, 11⟩ (by decide)
    (Or.inl ⟨by decide, by decide⟩) (by decide)
  have h2 := c8_anyuid_is_rendered false ⟨0, 0⟩ (fun _ => none) 0
    ⟨2, 56, 1, 2, 0, 0, 0, 0, 0, 0, 0⟩ (by decide)
    (Or.inr ⟨by decide, by decide⟩) (by decide)
  exact ⟨h1.1, h1.2.1.trans (by decide), h1.2.2.1, h1.2.2.2,
    h2.1, h2.2.1.trans (by decide)⟩

end Tsdump
